import Mathlib

/-!
Shallow embedding of the budget-tracker web application (`src/app.py`).

The application is a Flask CRUD app over three relational tables
(`user`, `category`, `transaction`).  We embed:

* the three record types and the relational store (rows kept in insertion
  order, primary keys assigned from a per-table counter, as the database
  serial columns do);
* the session identity (`flask_login`): `Option Nat` holding the logged-in
  user id, resolved per request by `load_user` against the `user` table;
* each route handler (`login`, `logout`, `home`, `dashboard`, `categories`,
  `register`) as a function from store, session and request (method + form
  fields) to a `HandlerOut`: the store after the request, the HTTP response,
  the one-shot flash messages, and the session after the request.

External collaborators are modelled at their interface, per the source:
* `bcrypt.generate_password_hash` / `check_password_hash` as an injective
  tagging pair (hash internals are out of scope; the handler only relies on
  verification succeeding exactly for the hashed password);
* `datetime.strptime(s, "%Y-%m-%d").date()` as `parseDate`, returning
  `none` where `strptime` raises `ValueError` (an unparsable string);
  an exception escaping a handler surfaces as `Response.internalError`
  (Flask converts it to an HTTP 500), leaving the store unchanged since no
  `db.session.add`/`commit` ran;
* the database `ORDER BY transaction_date DESC` (a single sort key, no
  secondary key in the source) as a stable merge sort of the insertion-order
  row list by date descending;
* the `category_id` foreign-key constraint: committing a transaction whose
  `category_id` matches no category row raises an integrity error
  (unhandled in the dashboard handler).
-/

namespace BudgetTracker

/-- A row of the `user` table (`class User` in `src/app.py`). -/
structure User where
  id : Nat
  username : String
  email : String
  password_hash : String
deriving Repr, DecidableEq

/-- A row of the `category` table (`class Category` in `src/app.py`).
`type` is the "Income" or "Expense" string. -/
structure Category where
  id : Nat
  name : String
  type : String
  user_id : Nat
deriving Repr, DecidableEq

/-- A calendar date as produced by `datetime.strptime(s, "%Y-%m-%d").date()`. -/
structure Date where
  year : Nat
  month : Nat
  day : Nat
deriving Repr, DecidableEq

/-- A row of the `transaction` table (`class Transaction` in `src/app.py`).
The handler stores the `amount` form string unchanged (coercion to the Float
column is the database driver's concern), so `amount` is kept as the string
the handler received. -/
structure Transaction where
  id : Nat
  amount : String
  description : String
  transaction_date : Date
  user_id : Nat
  category_id : Nat
deriving Repr, DecidableEq

/-- The relational store: the three tables in insertion order, plus the next
serial primary key of each table. -/
structure Store where
  users : List User
  categories : List Category
  transactions : List Transaction
  nextUserId : Nat
  nextCategoryId : Nat
  nextTransactionId : Nat
deriving Repr, DecidableEq

/-- The empty database, as after `db.create_all()` on a fresh schema. -/
def Store.empty : Store :=
  { users := [], categories := [], transactions := [],
    nextUserId := 1, nextCategoryId := 1, nextTransactionId := 1 }

/-- HTTP method of a request (the handlers only distinguish GET and POST). -/
inductive Method where
  | GET
  | POST
deriving Repr, DecidableEq

/-- The response a handler produces: a 302 redirect to a path, a rendered
template (data-carrying for the pages whose data the spec talks about), or
an HTTP 500 from an exception that escaped the handler. -/
inductive Response where
  | redirect (target : String)
  | render (page : String)
  | renderDashboard (categories : List Category) (transactions : List Transaction)
  | renderCategories (categories : List Category)
  | internalError (exn : String)
deriving Repr, DecidableEq

/-- A flash message: text and category string, as `flash(text, category)`. -/
abbrev Flash := String × String

/-- Everything observable about one handled request: the store afterwards,
the response, the flash messages emitted, and the session afterwards. -/
structure HandlerOut where
  store : Store
  response : Response
  flashes : List Flash
  session : Option Nat
deriving Repr, DecidableEq

/-- Model of `bcrypt.generate_password_hash(pw).decode("utf-8")`: an opaque
one-way digest, embedded as injective tagging (internals are out of scope). -/
def generate_password_hash (password : String) : String :=
  "bcrypt-digest:" ++ password

/-- Model of `bcrypt.check_password_hash(h, pw)`: verification succeeds
exactly when `h` is the digest of `pw`. -/
def check_password_hash (h password : String) : Bool :=
  h == generate_password_hash password

/-- Model of `load_user` / `current_user`: resolve the session token to a
`User` row by primary key, `none` when absent or stale. -/
def resolveUser (st : Store) (session : Option Nat) : Option User :=
  match session with
  | none => none
  | some uid => st.users.find? (fun u => u.id == uid)

/-- Leap-year rule used by the Python `datetime` calendar. -/
def isLeapYear (y : Nat) : Bool :=
  (y % 4 == 0 && y % 100 != 0) || (y % 400 == 0)

/-- Number of days in a month of the proleptic Gregorian calendar. -/
def daysInMonth (y m : Nat) : Nat :=
  if m == 2 then (if isLeapYear y then 29 else 28)
  else if m == 4 || m == 6 || m == 9 || m == 11 then 30
  else 31

/-- Split a character list on a separator, keeping empty fields, as
`String.splitOn` does for a one-character separator. -/
def splitOnChar (sep : Char) : List Char → List (List Char)
  | [] => [[]]
  | c :: cs =>
    match splitOnChar sep cs, c == sep with
    | rest, true => [] :: rest
    | [], false => [[c]]
    | f :: fs, false => (c :: f) :: fs

/-- Parse a non-empty all-digit character list as a natural number. -/
def parseNatDigits (cs : List Char) : Option Nat :=
  if cs.isEmpty then none
  else if cs.all (fun c => c.isDigit) then
    some (cs.foldl (fun n c => n * 10 + (c.toNat - 48)) 0)
  else none

/-- Model of `datetime.strptime(s, "%Y-%m-%d").date()`: three dash-separated
digit fields — `%Y` exactly four digits, `%m` and `%d` one or two digits —
with the year at least 1 (`datetime.MINYEAR`) and month and day validated
against the calendar.  `none` where `strptime` raises `ValueError`. -/
def parseDate (s : String) : Option Date :=
  match splitOnChar (Char.ofNat 45) s.data with
  | [ys, ms, ds] =>
    if ys.length != 4 || ms.length > 2 || ds.length > 2 then none
    else
      match parseNatDigits ys, parseNatDigits ms, parseNatDigits ds with
      | some y, some m, some d =>
        if 1 ≤ y && 1 ≤ m && m ≤ 12 && 1 ≤ d && d ≤ daysInMonth y m then
          some ⟨y, m, d⟩
        else none
      | _, _, _ => none
  | _ => none

/-- Total order key of a date: with month below 13 and day below 32 the key
orders dates chronologically. -/
def Date.key (d : Date) : Nat :=
  d.year * 10000 + d.month * 100 + d.day

/-- The comparison handed to the sort that models
`ORDER BY transaction_date DESC`: `a` may precede `b` when `a`'s date is at
least `b`'s. -/
def txDateDesc (a b : Transaction) : Prop :=
  b.transaction_date.key ≤ a.transaction_date.key

instance : DecidableRel txDateDesc :=
  fun _ _ => Nat.decLe _ _

instance : IsTotal Transaction txDateDesc :=
  ⟨fun _ _ => Nat.le_total _ _⟩

instance : IsTrans Transaction txDateDesc :=
  ⟨fun _ _ _ hab hbc => Nat.le_trans hbc hab⟩

/-- The dashboard transaction query:
`Transaction.query.filter_by(user_id=uid).order_by(Transaction.transaction_date.desc()).all()`.
A single descending sort key, no secondary key; the embedding uses a stable
sort of the insertion-order rows. -/
def transactionsQuery (st : Store) (uid : Nat) : List Transaction :=
  (st.transactions.filter (fun t => t.user_id == uid)).insertionSort txDateDesc

/-- The category list query shared by both pages:
`Category.query.filter_by(user_id=uid).all()`. -/
def categoriesQuery (st : Store) (uid : Nat) : List Category :=
  st.categories.filter (fun c => c.user_id == uid)

/-- Flask-Login's interception for `@login_required` routes: when the session
resolves to no user the handler body never runs and the client is redirected
to `login_manager.login_view` with the standard message in the configured
`info` category. -/
def requireLogin (st : Store) (session : Option Nat)
    (body : User → HandlerOut) : HandlerOut :=
  match resolveUser st session with
  | none =>
    { store := st, response := .redirect "/login",
      flashes := [("Please log in to access this page.", "info")],
      session := session }
  | some u => body u

/-- Form fields of POST `/login`. -/
structure LoginForm where
  username : String
  password : String
deriving Repr, DecidableEq

/-- Form fields of POST `/register`. -/
structure RegisterForm where
  username : String
  email : String
  password : String
deriving Repr, DecidableEq

/-- Form fields of POST `/dashboard`.  `category_id` is submitted as a string
and coerced to the integer column by the database driver; it is kept numeric
here. -/
structure TransactionForm where
  amount : String
  description : String
  category_id : Nat
  transaction_date : String
deriving Repr, DecidableEq

/-- Form fields of POST `/categories`. -/
structure CategoryForm where
  name : String
  type : String
deriving Repr, DecidableEq

/-- Committing a new `User` row: the store raises a uniqueness violation on a
duplicate `username` or `email` (both columns are `unique=True`); otherwise
the row is appended with the next serial id.  The error value is the text of
the exception the driver raises, which the register handler interpolates. -/
def insertUser (st : Store) (username email password_hash : String) :
    Except String Store :=
  if st.users.any (fun u => u.username == username) then
    .error "duplicate key value violates unique constraint user_username_key"
  else if st.users.any (fun u => u.email == email) then
    .error "duplicate key value violates unique constraint user_email_key"
  else
    .ok { st with
          users := st.users ++
            [{ id := st.nextUserId, username := username, email := email,
               password_hash := password_hash }],
          nextUserId := st.nextUserId + 1 }

/-- The shared failure branch of the login handler: the one generic message
for both an unknown username and a wrong password, re-rendering the form. -/
def loginFailureOut (st : Store) (session : Option Nat) : HandlerOut :=
  { store := st, response := .render "login.html",
    flashes := [("Login unsuccessful. Please check username and password.", "danger")],
    session := session }

/-- The `/login` route (`def login` in `src/app.py`).  An authenticated
client is redirected to `home` at once; a POST looks the user up by username
and verifies the password, logging in and redirecting to `home` on success
and falling to the single failure branch otherwise; a GET renders the form. -/
def login (st : Store) (session : Option Nat) (method : Method)
    (form : LoginForm) : HandlerOut :=
  if (resolveUser st session).isSome then
    { store := st, response := .redirect "/", flashes := [], session := session }
  else
    match method with
    | .POST =>
      match st.users.find? (fun u => u.username == form.username) with
      | some user =>
        if check_password_hash user.password_hash form.password then
          { store := st, response := .redirect "/",
            flashes := [("Login successful!", "success")],
            session := some user.id }
        else loginFailureOut st session
      | none => loginFailureOut st session
    | .GET =>
      { store := st, response := .render "login.html", flashes := [],
        session := session }

/-- The `/logout` route: clears the session unconditionally, flashes, and
redirects home. -/
def logout (st : Store) (_session : Option Nat) : HandlerOut :=
  { store := st, response := .redirect "/",
    flashes := [("You have been logged out.", "info")], session := none }

/-- The `/` route (`def home`): an authenticated client is redirected to the
dashboard; otherwise the public landing page is rendered. -/
def home (st : Store) (session : Option Nat) : HandlerOut :=
  if (resolveUser st session).isSome then
    { store := st, response := .redirect "/dashboard", flashes := [],
      session := session }
  else
    { store := st, response := .render "index.html", flashes := [],
      session := session }

/-- The `/dashboard` route (`def dashboard`), behind `@login_required`.
POST parses the submitted date with `strptime` — an unparsable string raises
`ValueError` out of the handler — then commits a `Transaction` linked to the
current user and the submitted `category_id` with no ownership check (a
missing category row raises the foreign-key integrity error out of the
handler), flashes success and redirects back.  GET renders the user's
categories and the user's transactions ordered by date descending. -/
def dashboard (st : Store) (session : Option Nat) (method : Method)
    (form : TransactionForm) : HandlerOut :=
  requireLogin st session fun current_user =>
    match method with
    | .POST =>
      match parseDate form.transaction_date with
      | none =>
        { store := st,
          response := .internalError "ValueError: time data does not match format %Y-%m-%d",
          flashes := [], session := session }
      | some transaction_date =>
        if st.categories.any (fun c => c.id == form.category_id) then
          { store :=
              { st with
                transactions := st.transactions ++
                  [{ id := st.nextTransactionId, amount := form.amount,
                     description := form.description,
                     transaction_date := transaction_date,
                     user_id := current_user.id,
                     category_id := form.category_id }],
                nextTransactionId := st.nextTransactionId + 1 },
            response := .redirect "/dashboard",
            flashes := [("Transaction added successfully!", "success")],
            session := session }
        else
          { store := st,
            response := .internalError "IntegrityError: insert or update on table transaction violates foreign key constraint",
            flashes := [], session := session }
    | .GET =>
      { store := st,
        response := .renderDashboard (categoriesQuery st current_user.id)
          (transactionsQuery st current_user.id),
        flashes := [], session := session }

/-- The `/categories` route (`def categories`), behind `@login_required`.
POST checks for an existing category with the same user and name, flashing a
duplicate warning and writing nothing when found, and otherwise committing a
new `Category` owned by the current user with a success flash; either way it
redirects back to the page.  GET renders the user's categories. -/
def categories (st : Store) (session : Option Nat) (method : Method)
    (form : CategoryForm) : HandlerOut :=
  requireLogin st session fun current_user =>
    match method with
    | .POST =>
      match st.categories.find?
          (fun c => c.user_id == current_user.id && c.name == form.name) with
      | some _ =>
        { store := st, response := .redirect "/categories",
          flashes := [("This category name already exists.", "danger")],
          session := session }
      | none =>
        { store :=
            { st with
              categories := st.categories ++
                [{ id := st.nextCategoryId, name := form.name,
                   type := form.type, user_id := current_user.id }],
              nextCategoryId := st.nextCategoryId + 1 },
          response := .redirect "/categories",
          flashes := [("Category added successfully!", "success")],
          session := session }
    | .GET =>
      { store := st,
        response := .renderCategories (categoriesQuery st current_user.id),
        flashes := [], session := session }

/-- The `/register` route (`def register`).  POST hashes the password and
attempts to commit the new `User`; a persistence error is caught, the session
rolled back (the store is left as it was), the raw exception text interpolated
into the flash, and the client redirected back to the registration form; on
success the client is redirected home with a success flash.  GET renders the
form. -/
def register (st : Store) (session : Option Nat) (method : Method)
    (form : RegisterForm) : HandlerOut :=
  match method with
  | .POST =>
    let hashed_password := generate_password_hash form.password
    match insertUser st form.username form.email hashed_password with
    | .ok st' =>
      { store := st', response := .redirect "/",
        flashes := [("Account created successfully! You can now log in.", "success")],
        session := session }
    | .error e =>
      { store := st, response := .redirect "/register",
        flashes := [("Error creating account: " ++ e ++ ". Please try again.", "danger")],
        session := session }
  | .GET =>
    { store := st, response := .render "register.html", flashes := [],
      session := session }

/-!
Concrete fixtures used by witnesses and counterexamples.
-/

/-- A registered user, as produced by a successful `/register` POST. -/
def alice : User :=
  { id := 1, username := "alice", email := "alice@example.com",
    password_hash := generate_password_hash "pw123" }

/-- A second registered user. -/
def bob : User :=
  { id := 2, username := "bob", email := "bob@example.com",
    password_hash := generate_password_hash "hunter2" }

/-- A category owned by `alice`. -/
def salary : Category :=
  { id := 1, name := "Salary", type := "Income", user_id := 1 }

/-- A store holding `alice` and `bob`, with one category owned by `alice`. -/
def twoUserStore : Store :=
  { users := [alice, bob], categories := [salary], transactions := [],
    nextUserId := 3, nextCategoryId := 2, nextTransactionId := 1 }

/-!
Claim theorems.
-/

/-- C1: for every request from an unauthenticated (Anonymous) client to GET
or POST `/dashboard` or `/categories`, the handler body is not executed and
the response is an HTTP 302 redirect whose target is the login path.  The
whole observable output is pinned: the store is returned untouched and the
only effect is the redirect to `/login` with the standard info flash. -/
theorem unauthenticated_protected_routes_redirect_to_login
    (st : Store) (session : Option Nat) (m : Method)
    (tf : TransactionForm) (cf : CategoryForm)
    (h : resolveUser st session = none) :
    dashboard st session m tf =
      { store := st, response := Response.redirect "/login",
        flashes := [("Please log in to access this page.", "info")],
        session := session } ∧
    categories st session m cf =
      { store := st, response := Response.redirect "/login",
        flashes := [("Please log in to access this page.", "info")],
        session := session } := by
  constructor
  · unfold dashboard requireLogin
    rw [h]
  · unfold categories requireLogin
    rw [h]

/-- Witness for C1 at a concrete anonymous request against the empty store. -/
theorem unauthenticated_protected_routes_redirect_to_login_witness :
    resolveUser Store.empty none = none ∧
    (dashboard Store.empty none Method.POST
        { amount := "5", description := "x", category_id := 1,
          transaction_date := "2025-01-15" } =
      { store := Store.empty, response := Response.redirect "/login",
        flashes := [("Please log in to access this page.", "info")],
        session := none } ∧
    categories Store.empty none Method.POST { name := "Food", type := "Expense" } =
      { store := Store.empty, response := Response.redirect "/login",
        flashes := [("Please log in to access this page.", "info")],
        session := none }) :=
  ⟨rfl, unauthenticated_protected_routes_redirect_to_login Store.empty none
    Method.POST
    { amount := "5", description := "x", category_id := 1,
      transaction_date := "2025-01-15" }
    { name := "Food", type := "Expense" } rfl⟩

/-- C2: the dashboard POST handler performs no check that the submitted
`category_id` belongs to the current user.  Evaluated at the failing input —
`bob` (user id 2) submitting `alice`'s category id 1 — the commit goes
through and the store ends up holding a transaction whose category is owned
by a different user, violating the claimed invariant. -/
theorem dashboard_post_accepts_foreign_category :
    ∃ t ∈ (dashboard twoUserStore (some 2) Method.POST
        { amount := "10", description := "sneaky", category_id := 1,
          transaction_date := "2025-02-01" }).store.transactions,
      ∃ c ∈ (dashboard twoUserStore (some 2) Method.POST
        { amount := "10", description := "sneaky", category_id := 1,
          transaction_date := "2025-02-01" }).store.categories,
        c.id = t.category_id ∧ c.user_id ≠ t.user_id := by
  decide

/-- C3: for every authenticated POST to `/dashboard` whose
`transaction_date` does not parse, the handler raises the `strptime`
`ValueError` out of the request (an HTTP 500), emitting no user-visible
flash; the store is not mutated. -/
theorem dashboard_post_unparsable_date_raises
    (st : Store) (session : Option Nat) (u : User) (tf : TransactionForm)
    (hu : resolveUser st session = some u)
    (hd : parseDate tf.transaction_date = none) :
    dashboard st session Method.POST tf =
      { store := st,
        response := Response.internalError
          "ValueError: time data does not match format %Y-%m-%d",
        flashes := [], session := session } := by
  unfold dashboard requireLogin
  rw [hu]
  simp only [hd]

/-- Witness for C3: `alice` submits the unparsable date string `banana`. -/
theorem dashboard_post_unparsable_date_raises_witness :
    resolveUser twoUserStore (some 1) = some alice ∧
    parseDate "banana" = none ∧
    dashboard twoUserStore (some 1) Method.POST
      { amount := "5", description := "x", category_id := 1,
        transaction_date := "banana" } =
      { store := twoUserStore,
        response := Response.internalError
          "ValueError: time data does not match format %Y-%m-%d",
        flashes := [], session := some 1 } :=
  ⟨by decide, by decide,
    dashboard_post_unparsable_date_raises twoUserStore (some 1) alice
      { amount := "5", description := "x", category_id := 1,
        transaction_date := "banana" } (by decide) (by decide)⟩

/-- C4: for every authenticated user, GET `/dashboard` and GET `/categories`
return only `Category` and `Transaction` rows whose `user_id` equals the
authenticated user's id, and a category of a different owner never appears
in the rendered category list. -/
theorem authenticated_reads_scoped_to_current_user
    (st : Store) (session : Option Nat) (u : User)
    (tf : TransactionForm) (cf : CategoryForm)
    (h : resolveUser st session = some u) :
    dashboard st session Method.GET tf =
      { store := st,
        response := Response.renderDashboard (categoriesQuery st u.id)
          (transactionsQuery st u.id),
        flashes := [], session := session } ∧
    categories st session Method.GET cf =
      { store := st,
        response := Response.renderCategories (categoriesQuery st u.id),
        flashes := [], session := session } ∧
    (∀ c ∈ categoriesQuery st u.id, c.user_id = u.id) ∧
    (∀ t ∈ transactionsQuery st u.id, t.user_id = u.id) ∧
    (∀ c ∈ st.categories, c.user_id ≠ u.id → c ∉ categoriesQuery st u.id) := by
  refine ⟨?_, ?_, ?_, ?_, ?_⟩
  · unfold dashboard requireLogin
    rw [h]
  · unfold categories requireLogin
    rw [h]
  · intro c hc
    simp only [categoriesQuery, List.mem_filter, beq_iff_eq] at hc
    exact hc.2
  · intro t ht
    simp only [transactionsQuery, List.mem_insertionSort, List.mem_filter,
      beq_iff_eq] at ht
    exact ht.2
  · intro c _ hne hmem
    simp only [categoriesQuery, List.mem_filter, beq_iff_eq] at hmem
    exact hne hmem.2

/-- Witness for C4: `bob` is authenticated against the store where `alice`
owns the only category; in particular `alice`'s category is absent from
`bob`'s reads. -/
theorem authenticated_reads_scoped_to_current_user_witness :
    resolveUser twoUserStore (some 2) = some bob ∧
    (dashboard twoUserStore (some 2) Method.GET
        { amount := "", description := "", category_id := 1,
          transaction_date := "" } =
      { store := twoUserStore,
        response := Response.renderDashboard (categoriesQuery twoUserStore bob.id)
          (transactionsQuery twoUserStore bob.id),
        flashes := [], session := some 2 } ∧
    categories twoUserStore (some 2) Method.GET { name := "", type := "" } =
      { store := twoUserStore,
        response := Response.renderCategories (categoriesQuery twoUserStore bob.id),
        flashes := [], session := some 2 } ∧
    (∀ c ∈ categoriesQuery twoUserStore bob.id, c.user_id = bob.id) ∧
    (∀ t ∈ transactionsQuery twoUserStore bob.id, t.user_id = bob.id) ∧
    (∀ c ∈ twoUserStore.categories, c.user_id ≠ bob.id →
      c ∉ categoriesQuery twoUserStore bob.id)) :=
  ⟨by decide,
    authenticated_reads_scoped_to_current_user twoUserStore (some 2) bob
      { amount := "", description := "", category_id := 1,
        transaction_date := "" }
      { name := "", type := "" } (by decide)⟩

/-- C5: a POST to `/register` that hits a persistence error — here, a
duplicate username or duplicate email, the uniqueness violations the store
raises — is rolled back: the user table (and its length) is unchanged, a
danger flash with the error message is emitted, and the response redirects
back to the registration form instead of crashing. -/
theorem register_duplicate_rolls_back
    (st : Store) (session : Option Nat) (form : RegisterForm)
    (h : (∃ u ∈ st.users, u.username = form.username) ∨
         (∃ u ∈ st.users, u.email = form.email)) :
    (register st session Method.POST form).store = st ∧
    (register st session Method.POST form).store.users.length =
      st.users.length ∧
    (register st session Method.POST form).response =
      Response.redirect "/register" ∧
    ∃ e, (register st session Method.POST form).flashes =
      [("Error creating account: " ++ e ++ ". Please try again.", "danger")] := by
  have hins : ∃ e, insertUser st form.username form.email
      (generate_password_hash form.password) = Except.error e := by
    unfold insertUser
    rcases h with ⟨u, hu, hname⟩ | ⟨u, hu, hemail⟩
    · have hb : st.users.any (fun x => x.username == form.username) = true :=
        List.any_eq_true.mpr ⟨u, hu, beq_iff_eq.mpr hname⟩
      rw [if_pos hb]
      exact ⟨_, rfl⟩
    · by_cases hn : st.users.any (fun x => x.username == form.username) = true
      · rw [if_pos hn]
        exact ⟨_, rfl⟩
      · rw [if_neg hn]
        have hb : st.users.any (fun x => x.email == form.email) = true :=
          List.any_eq_true.mpr ⟨u, hu, beq_iff_eq.mpr hemail⟩
        rw [if_pos hb]
        exact ⟨_, rfl⟩
  obtain ⟨e, he⟩ := hins
  unfold register
  dsimp only
  rw [he]
  exact ⟨rfl, rfl, rfl, e, rfl⟩

/-- Witness for C5: registering a second `alice` against the two-user store
leaves the user table unchanged and redirects back to the form. -/
theorem register_duplicate_rolls_back_witness :
    ((∃ u ∈ twoUserStore.users, u.username = "alice") ∨
      (∃ u ∈ twoUserStore.users, u.email = "new@example.com")) ∧
    ((register twoUserStore none Method.POST
        { username := "alice", email := "new@example.com",
          password := "x" }).store = twoUserStore ∧
    (register twoUserStore none Method.POST
        { username := "alice", email := "new@example.com",
          password := "x" }).store.users.length =
      twoUserStore.users.length ∧
    (register twoUserStore none Method.POST
        { username := "alice", email := "new@example.com",
          password := "x" }).response = Response.redirect "/register" ∧
    ∃ e, (register twoUserStore none Method.POST
        { username := "alice", email := "new@example.com",
          password := "x" }).flashes =
      [("Error creating account: " ++ e ++ ". Please try again.", "danger")]) :=
  ⟨by decide,
    register_duplicate_rolls_back twoUserStore none
      { username := "alice", email := "new@example.com", password := "x" }
      (by decide)⟩

/-- The per-user category-name uniqueness invariant that the application
level existence check in the categories handler maintains. -/
def NamesUniquePerUser (st : Store) : Prop :=
  st.categories.Pairwise (fun a b => ¬(a.user_id = b.user_id ∧ a.name = b.name))

/-- No branch of the dashboard handler writes to the category table. -/
theorem dashboard_preserves_categories (st : Store) (session : Option Nat)
    (m : Method) (tf : TransactionForm) :
    (dashboard st session m tf).store.categories = st.categories := by
  unfold dashboard requireLogin
  cases hres : resolveUser st session with
  | none => rfl
  | some u =>
    cases m with
    | GET => rfl
    | POST =>
      dsimp only
      cases parseDate tf.transaction_date with
      | none => rfl
      | some d =>
        dsimp only
        by_cases hc : st.categories.any (fun c => c.id == tf.category_id) = true
        · rw [if_pos hc]
        · rw [if_neg hc]

/-- A successful user insert touches only the user table. -/
theorem insertUser_ok_categories {st st' : Store} {a b c : String}
    (h : insertUser st a b c = Except.ok st') :
    st'.categories = st.categories := by
  unfold insertUser at h
  split at h
  · cases h
  · split at h
    · cases h
    · injection h with h2
      rw [← h2]

/-- No branch of the register handler writes to the category table. -/
theorem register_preserves_categories (st : Store) (session : Option Nat)
    (m : Method) (form : RegisterForm) :
    (register st session m form).store.categories = st.categories := by
  unfold register
  cases m with
  | GET => rfl
  | POST =>
    dsimp only
    cases h : insertUser st form.username form.email
        (generate_password_hash form.password) with
    | ok st' => exact insertUser_ok_categories h
    | error e => rfl

/-- No branch of the login handler writes to the store. -/
theorem login_preserves_store (st : Store) (session : Option Nat)
    (m : Method) (f : LoginForm) :
    (login st session m f).store = st := by
  unfold login loginFailureOut
  by_cases h : (resolveUser st session).isSome = true
  · rw [if_pos h]
  · rw [if_neg h]
    cases m with
    | GET => rfl
    | POST =>
      dsimp only
      cases st.users.find? (fun u => u.username == f.username) with
      | none => rfl
      | some user =>
        dsimp only
        by_cases hc : check_password_hash user.password_hash f.password = true
        · rw [if_pos hc]
        · rw [if_neg hc]

/-- The logout handler never writes to the store. -/
theorem logout_preserves_store (st : Store) (session : Option Nat) :
    (logout st session).store = st := rfl

/-- The home handler never writes to the store. -/
theorem home_preserves_store (st : Store) (session : Option Nat) :
    (home st session).store = st := by
  unfold home
  by_cases h : (resolveUser st session).isSome = true
  · rw [if_pos h]
  · rw [if_neg h]

/-- C6: an authenticated POST to `/categories` with an already-used
(user, name) pair flashes the duplicate warning and writes nothing, and with
a fresh name creates a category owned by the current user with a success
flash; both cases redirect back to the categories page.  Consequently the
per-user name-uniqueness invariant is preserved by the categories POST, and
trivially by every other handler, none of which writes the category table. -/
theorem categories_post_duplicate_guard_preserves_uniqueness
    (st : Store) (session : Option Nat) (u : User) (form : CategoryForm)
    (h : resolveUser st session = some u) :
    ((∃ c ∈ st.categories, c.user_id = u.id ∧ c.name = form.name) →
      categories st session Method.POST form =
        { store := st, response := Response.redirect "/categories",
          flashes := [("This category name already exists.", "danger")],
          session := session }) ∧
    ((∀ c ∈ st.categories, ¬(c.user_id = u.id ∧ c.name = form.name)) →
      categories st session Method.POST form =
        { store :=
            { st with
              categories := st.categories ++
                [{ id := st.nextCategoryId, name := form.name,
                   type := form.type, user_id := u.id }],
              nextCategoryId := st.nextCategoryId + 1 },
          response := Response.redirect "/categories",
          flashes := [("Category added successfully!", "success")],
          session := session }) ∧
    (NamesUniquePerUser st →
      NamesUniquePerUser (categories st session Method.POST form).store) ∧
    (∀ (m : Method) (tf : TransactionForm),
      (dashboard st session m tf).store.categories = st.categories) ∧
    (∀ (m : Method) (rf : RegisterForm),
      (register st session m rf).store.categories = st.categories) ∧
    (∀ (m : Method) (lf : LoginForm), (login st session m lf).store = st) ∧
    (logout st session).store = st ∧
    (home st session).store = st := by
  refine ⟨?_, ?_, ?_,
    fun m tf => dashboard_preserves_categories st session m tf,
    fun m rf => register_preserves_categories st session m rf,
    fun m lf => login_preserves_store st session m lf,
    logout_preserves_store st session, home_preserves_store st session⟩
  · intro hex
    unfold categories requireLogin
    rw [h]
    dsimp only
    cases hfind : st.categories.find?
        (fun c => c.user_id == u.id && c.name == form.name) with
    | none =>
      exfalso
      obtain ⟨c, hc, hcu, hcn⟩ := hex
      have hnone := List.find?_eq_none.mp hfind c hc
      simp [hcu, hcn] at hnone
    | some c => rfl
  · intro hall
    unfold categories requireLogin
    rw [h]
    dsimp only
    have hfind : st.categories.find?
        (fun c => c.user_id == u.id && c.name == form.name) = none := by
      apply List.find?_eq_none.mpr
      intro c hc hpc
      simp only [Bool.and_eq_true, beq_iff_eq] at hpc
      exact hall c hc hpc
    rw [hfind]
  · intro huniq
    unfold categories requireLogin
    rw [h]
    dsimp only
    cases hfind : st.categories.find?
        (fun c => c.user_id == u.id && c.name == form.name) with
    | some c => exact huniq
    | none =>
      unfold NamesUniquePerUser at huniq ⊢
      dsimp only
      rw [List.pairwise_append]
      refine ⟨huniq, List.pairwise_singleton _ _, ?_⟩
      intro a ha b hb
      rw [List.mem_singleton.mp hb]
      intro hand
      have hnone := List.find?_eq_none.mp hfind a ha
      simp [hand.1, hand.2] at hnone

/-- Witness for C6: `alice` re-submits her existing category name `Salary`
against the two-user store; the duplicate branch fires and nothing changes. -/
theorem categories_post_duplicate_guard_preserves_uniqueness_witness :
    resolveUser twoUserStore (some 1) = some alice ∧
    (((∃ c ∈ twoUserStore.categories,
        c.user_id = alice.id ∧ c.name = "Salary") →
      categories twoUserStore (some 1) Method.POST
          { name := "Salary", type := "Income" } =
        { store := twoUserStore, response := Response.redirect "/categories",
          flashes := [("This category name already exists.", "danger")],
          session := some 1 }) ∧
    ((∀ c ∈ twoUserStore.categories,
        ¬(c.user_id = alice.id ∧ c.name = "Salary")) →
      categories twoUserStore (some 1) Method.POST
          { name := "Salary", type := "Income" } =
        { store :=
            { twoUserStore with
              categories := twoUserStore.categories ++
                [{ id := twoUserStore.nextCategoryId, name := "Salary",
                   type := "Income", user_id := alice.id }],
              nextCategoryId := twoUserStore.nextCategoryId + 1 },
          response := Response.redirect "/categories",
          flashes := [("Category added successfully!", "success")],
          session := some 1 }) ∧
    (NamesUniquePerUser twoUserStore →
      NamesUniquePerUser (categories twoUserStore (some 1) Method.POST
        { name := "Salary", type := "Income" }).store) ∧
    (∀ (m : Method) (tf : TransactionForm),
      (dashboard twoUserStore (some 1) m tf).store.categories =
        twoUserStore.categories) ∧
    (∀ (m : Method) (rf : RegisterForm),
      (register twoUserStore (some 1) m rf).store.categories =
        twoUserStore.categories) ∧
    (∀ (m : Method) (lf : LoginForm),
      (login twoUserStore (some 1) m lf).store = twoUserStore) ∧
    (logout twoUserStore (some 1)).store = twoUserStore ∧
    (home twoUserStore (some 1)).store = twoUserStore) :=
  ⟨by decide,
    categories_post_duplicate_guard_preserves_uniqueness twoUserStore (some 1)
      alice { name := "Salary", type := "Income" } (by decide)⟩

/-- A first transaction of `alice`, inserted before `txSecond` with the same
date. -/
def txFirst : Transaction :=
  { id := 1, amount := "42.50", description := "groceries",
    transaction_date := ⟨2025, 1, 15⟩, user_id := 1, category_id := 1 }

/-- A second transaction of `alice`, same date as `txFirst`, larger id. -/
def txSecond : Transaction :=
  { id := 2, amount := "7.00", description := "coffee",
    transaction_date := ⟨2025, 1, 15⟩, user_id := 1, category_id := 1 }

/-- A store where `alice` owns two transactions carrying the same date,
inserted as ids 1 then 2. -/
def tieStore : Store :=
  { users := [alice], categories := [salary],
    transactions := [txFirst, txSecond],
    nextUserId := 2, nextCategoryId := 2, nextTransactionId := 3 }

/-- The ordering claimed for the dashboard list: transaction date descending
with ties among equal dates broken by insertion id descending. -/
def claimedDateThenIdDesc (a b : Transaction) : Prop :=
  b.transaction_date.key < a.transaction_date.key ∨
    (b.transaction_date.key = a.transaction_date.key ∧ b.id < a.id)

instance : DecidableRel claimedDateThenIdDesc := fun a b => by
  unfold claimedDateThenIdDesc
  infer_instance

/-- C7 counterexample: the source orders by the single key
`transaction_date` descending and supplies no secondary key, so for user 1's
two equal-date transactions the dashboard list keeps insertion order — id 1
before id 2 — and is not ordered by insertion id descending among ties. -/
theorem dashboard_ties_not_id_descending :
    (dashboard tieStore (some 1) Method.GET
        { amount := "", description := "", category_id := 1,
          transaction_date := "" }).response =
      Response.renderDashboard [salary] [txFirst, txSecond] ∧
    txFirst.transaction_date = txSecond.transaction_date ∧
    txFirst.id < txSecond.id ∧
    ¬ List.Pairwise claimedDateThenIdDesc (transactionsQuery tieStore 1) := by
  decide

/-- C7 (amended): for every authenticated GET `/dashboard`, the rendered
transaction list is exactly the current user's transactions (a permutation
of the ownership-filtered table) ordered by transaction date descending;
the code supplies no secondary sort key, so equal dates are not reordered
(the stable sort keeps insertion order).  In particular a transaction with a
given date sorts at or before every transaction with a strictly older date. -/
theorem dashboard_transactions_date_descending
    (st : Store) (session : Option Nat) (u : User) (tf : TransactionForm)
    (h : resolveUser st session = some u) :
    dashboard st session Method.GET tf =
      { store := st,
        response := Response.renderDashboard (categoriesQuery st u.id)
          (transactionsQuery st u.id),
        flashes := [], session := session } ∧
    (transactionsQuery st u.id).Perm
      (st.transactions.filter (fun t => t.user_id == u.id)) ∧
    (transactionsQuery st u.id).Pairwise txDateDesc ∧
    (∀ i j : Fin (transactionsQuery st u.id).length, i < j →
      ((transactionsQuery st u.id).get j).transaction_date.key ≤
        ((transactionsQuery st u.id).get i).transaction_date.key) := by
  refine ⟨?_, ?_, ?_, ?_⟩
  · unfold dashboard requireLogin
    rw [h]
  · exact List.perm_insertionSort _ _
  · exact List.sorted_insertionSort _ _
  · intro i j hij
    exact List.pairwise_iff_get.mp (List.sorted_insertionSort _ _) i j hij

/-- Witness for C7 (amended) at the tie store with `alice` logged in. -/
theorem dashboard_transactions_date_descending_witness :
    resolveUser tieStore (some 1) = some alice ∧
    (dashboard tieStore (some 1) Method.GET
        { amount := "", description := "", category_id := 1,
          transaction_date := "" } =
      { store := tieStore,
        response := Response.renderDashboard (categoriesQuery tieStore alice.id)
          (transactionsQuery tieStore alice.id),
        flashes := [], session := some 1 } ∧
    (transactionsQuery tieStore alice.id).Perm
      (tieStore.transactions.filter (fun t => t.user_id == alice.id)) ∧
    (transactionsQuery tieStore alice.id).Pairwise txDateDesc ∧
    (∀ i j : Fin (transactionsQuery tieStore alice.id).length, i < j →
      ((transactionsQuery tieStore alice.id).get j).transaction_date.key ≤
        ((transactionsQuery tieStore alice.id).get i).transaction_date.key)) :=
  ⟨by decide,
    dashboard_transactions_date_descending tieStore (some 1) alice
      { amount := "", description := "", category_id := 1,
        transaction_date := "" } (by decide)⟩

/-- Whether a POST of `form` to the login route fails: the submitted
username matches no user, or the matched user's password hash does not
verify.  This is exactly the complement of the guard of the handler's
success branch. -/
def loginAttemptFails (st : Store) (form : LoginForm) : Bool :=
  match st.users.find? (fun u => u.username == form.username) with
  | none => true
  | some u => ! check_password_hash u.password_hash form.password

/-- C8: every failing POST to `/login` — unknown username and wrong password
alike — produces the one shared failure output `loginFailureOut`: the same
single generic danger flash and a re-render of the login form.  Two failing
requests are observationally identical whatever their cause, so the response
leaks no account existence. -/
theorem login_failures_indistinguishable
    (st : Store) (session : Option Nat) (f1 f2 : LoginForm)
    (hanon : resolveUser st session = none)
    (h1 : loginAttemptFails st f1 = true)
    (h2 : loginAttemptFails st f2 = true) :
    login st session Method.POST f1 = loginFailureOut st session ∧
    login st session Method.POST f2 = loginFailureOut st session ∧
    login st session Method.POST f1 = login st session Method.POST f2 := by
  have key : ∀ f : LoginForm, loginAttemptFails st f = true →
      login st session Method.POST f = loginFailureOut st session := by
    intro f hf
    unfold loginAttemptFails at hf
    cases hfind : st.users.find? (fun u => u.username == f.username) with
    | none => simp [login, hanon, hfind]
    | some user =>
      rw [hfind] at hf
      rw [Bool.not_eq_true'] at hf
      simp [login, hanon, hfind, hf]
  exact ⟨key f1 h1, key f2 h2, (key f1 h1).trans (key f2 h2).symm⟩

/-- Witness for C8: an unknown-username failure and a wrong-password failure
against the two-user store yield literally the same output. -/
theorem login_failures_indistinguishable_witness :
    resolveUser twoUserStore none = none ∧
    loginAttemptFails twoUserStore
      { username := "mallory", password := "whatever" } = true ∧
    loginAttemptFails twoUserStore
      { username := "alice", password := "wrongpw" } = true ∧
    (login twoUserStore none Method.POST
        { username := "mallory", password := "whatever" } =
      loginFailureOut twoUserStore none ∧
    login twoUserStore none Method.POST
        { username := "alice", password := "wrongpw" } =
      loginFailureOut twoUserStore none ∧
    login twoUserStore none Method.POST
        { username := "mallory", password := "whatever" } =
      login twoUserStore none Method.POST
        { username := "alice", password := "wrongpw" }) :=
  ⟨rfl, by decide, by decide,
    login_failures_indistinguishable twoUserStore none
      { username := "mallory", password := "whatever" }
      { username := "alice", password := "wrongpw" }
      rfl (by decide) (by decide)⟩

/-- C9: a successful POST to `/login` stores the user id in the session,
flashes the success message and redirects to `/`; feeding the resulting
store and session to the home handler redirects on to `/dashboard`, so the
redirect chain lands the now-authenticated client on the dashboard.  And any
request to `/login` by an already-authenticated client redirects immediately
(to `/`, whence home redirects to `/dashboard`) without consulting the
submitted credentials. -/
theorem login_success_redirects_to_dashboard
    (st : Store) (session : Option Nat) (u : User) (form : LoginForm)
    (hanon : resolveUser st session = none)
    (hfind : st.users.find? (fun x => x.username == form.username) = some u)
    (hpw : check_password_hash u.password_hash form.password = true) :
    login st session Method.POST form =
      { store := st, response := Response.redirect "/",
        flashes := [("Login successful!", "success")],
        session := some u.id } ∧
    home (login st session Method.POST form).store
        (login st session Method.POST form).session =
      { store := st, response := Response.redirect "/dashboard", flashes := [],
        session := some u.id } ∧
    (∀ (st2 : Store) (session2 : Option Nat) (m2 : Method) (f2 : LoginForm),
      (resolveUser st2 session2).isSome = true →
      login st2 session2 m2 f2 =
        { store := st2, response := Response.redirect "/", flashes := [],
          session := session2 } ∧
      home st2 session2 =
        { store := st2, response := Response.redirect "/dashboard",
          flashes := [], session := session2 }) := by
  have h1 : login st session Method.POST form =
      { store := st, response := Response.redirect "/",
        flashes := [("Login successful!", "success")],
        session := some u.id } := by
    simp [login, hanon, hfind, hpw]
  refine ⟨h1, ?_, ?_⟩
  · rw [h1]
    have hmem : u ∈ st.users := List.mem_of_find?_eq_some hfind
    have hres : (resolveUser st (some u.id)).isSome = true := by
      unfold resolveUser
      exact List.find?_isSome.mpr ⟨u, hmem, by simp⟩
    simp [home, hres]
  · intro st2 session2 m2 f2 hres2
    constructor
    · simp [login, hres2]
    · simp [home, hres2]

/-- Witness for C9: `alice` logs in with her correct password against the
two-user store and the redirect chain ends at the dashboard. -/
theorem login_success_redirects_to_dashboard_witness :
    resolveUser twoUserStore none = none ∧
    twoUserStore.users.find? (fun x => x.username == "alice") = some alice ∧
    check_password_hash alice.password_hash "pw123" = true ∧
    (login twoUserStore none Method.POST
        { username := "alice", password := "pw123" } =
      { store := twoUserStore, response := Response.redirect "/",
        flashes := [("Login successful!", "success")],
        session := some alice.id } ∧
    home (login twoUserStore none Method.POST
          { username := "alice", password := "pw123" }).store
        (login twoUserStore none Method.POST
          { username := "alice", password := "pw123" }).session =
      { store := twoUserStore, response := Response.redirect "/dashboard",
        flashes := [], session := some alice.id } ∧
    (∀ (st2 : Store) (session2 : Option Nat) (m2 : Method) (f2 : LoginForm),
      (resolveUser st2 session2).isSome = true →
      login st2 session2 m2 f2 =
        { store := st2, response := Response.redirect "/", flashes := [],
          session := session2 } ∧
      home st2 session2 =
        { store := st2, response := Response.redirect "/dashboard",
          flashes := [], session := session2 })) :=
  ⟨rfl, by decide, by decide,
    login_success_redirects_to_dashboard twoUserStore none alice
      { username := "alice", password := "pw123" }
      rfl (by decide) (by decide)⟩

/-- C10: the register handler's failure flash interpolates the raw caught
exception text into the user-visible message, so distinct persistence-layer
errors — such as the duplicate-username and duplicate-email constraint
violations — produce distinct client-visible messages rather than one
generic message, exposing which constraint failed. -/
theorem register_error_flash_leaks_exception_text
    (st : Store) (session : Option Nat) (form : RegisterForm) (e : String)
    (h : insertUser st form.username form.email
        (generate_password_hash form.password) = Except.error e) :
    (register st session Method.POST form).flashes =
      [("Error creating account: " ++ e ++ ". Please try again.", "danger")] ∧
    ∀ (form2 : RegisterForm) (e2 : String),
      insertUser st form2.username form2.email
          (generate_password_hash form2.password) = Except.error e2 →
      e ≠ e2 →
      (register st session Method.POST form).flashes ≠
        (register st session Method.POST form2).flashes := by
  have hout : ∀ (f : RegisterForm) (e0 : String),
      insertUser st f.username f.email (generate_password_hash f.password) =
        Except.error e0 →
      (register st session Method.POST f).flashes =
        [("Error creating account: " ++ e0 ++ ". Please try again.", "danger")] := by
    intro f e0 h0
    unfold register
    dsimp only
    rw [h0]
  refine ⟨hout form e h, ?_⟩
  intro form2 e2 h2 hne
  rw [hout form e h, hout form2 e2 h2]
  intro heq
  apply hne
  simp only [List.cons.injEq, Prod.mk.injEq, and_true] at heq
  have hd := congrArg String.data heq
  simp only [String.data_append] at hd
  exact String.ext (List.append_cancel_left (List.append_cancel_right hd))

/-- Witness for C10: against the two-user store, a duplicate-username
attempt and a duplicate-email attempt flash different messages, each naming
the violated constraint. -/
theorem register_error_flash_leaks_exception_text_witness :
    insertUser twoUserStore "alice" "fresh@example.com"
        (generate_password_hash "x") =
      Except.error
        "duplicate key value violates unique constraint user_username_key" ∧
    ((register twoUserStore none Method.POST
        { username := "alice", email := "fresh@example.com",
          password := "x" }).flashes =
      [("Error creating account: " ++
          "duplicate key value violates unique constraint user_username_key" ++
          ". Please try again.", "danger")] ∧
    ∀ (form2 : RegisterForm) (e2 : String),
      insertUser twoUserStore form2.username form2.email
          (generate_password_hash form2.password) = Except.error e2 →
      "duplicate key value violates unique constraint user_username_key" ≠ e2 →
      (register twoUserStore none Method.POST
          { username := "alice", email := "fresh@example.com",
            password := "x" }).flashes ≠
        (register twoUserStore none Method.POST form2).flashes) :=
  ⟨rfl,
    register_error_flash_leaks_exception_text twoUserStore none
      { username := "alice", email := "fresh@example.com", password := "x" }
      "duplicate key value violates unique constraint user_username_key"
      rfl⟩

end BudgetTracker
